import Mathlib

/-!
# JC_Sunrise: sunrise / sunset calculation

A shallow embedding of `src/JC_Sunrise.cpp` and `src/JC_Sunrise.h`.

Modelling conventions.

* `float` / `double` arithmetic is idealised as exact arithmetic in a linearly
  ordered field `K` with a floor function (`ℚ` for evaluation, `ℝ` for the
  trigonometric results).  Rounding error of the machine formats is not modelled;
  bounds that the rounding of `float` could cross are stated with a margin.
* The C library functions `sin, cos, tan, asin, acos, atan` are a parameter
  (`Trig K`); `realTrig` is the instance made of the real functions.
* `uint8_t` values are natural numbers reduced modulo `256`; `int` values are
  integers.
* The TimeLib functions (`breakTime`, `makeTime`, `year`, `month`, `day`) are
  external to the library and are a parameter (`TimeLib`).
-/

namespace JC_Sunrise

/-! ## Ordinal date -/

/-- The function `isLeap`, on the calendar year `y = year(t)`; the remainder is the
truncating remainder of C. -/
def isLeap (y : ℤ) : Bool :=
  (Int.tmod y 4 == 0 && Int.tmod y 100 != 0) || Int.tmod y 400 == 0

/-- The function `ordinalDate`, on the calendar fields `y = year(t)`, `m = month(t)`, `d = day(t)`.
The product `30.6 * (m + 1)` is exact arithmetic in `ℚ`. -/
def ordinalDate (y m d : ℤ) : ℤ :=
  if m = 1 then d
  else if m = 2 then d + 31
  else
    let n : ℤ := ⌊(306 / 10 : ℚ) * ((m + 1 : ℤ) : ℚ)⌋ + d - 122
    n + (if isLeap y then 60 else 59)

/-- Gregorian leap-year rule in the words of the specification. -/
def specLeap (y : ℤ) : Prop :=
  (4 ∣ y ∧ ¬ 100 ∣ y) ∨ 400 ∣ y

instance (y : ℤ) : Decidable (specLeap y) := by
  unfold specLeap; infer_instance

/-- Length of month `k` of year `y` in the Gregorian calendar. -/
def monthLength (y : ℤ) (k : ℕ) : ℤ :=
  match k with
  | 1 => 31
  | 2 => if specLeap y then 29 else 28
  | 3 => 31
  | 4 => 30
  | 5 => 31
  | 6 => 30
  | 7 => 31
  | 8 => 31
  | 9 => 30
  | 10 => 31
  | 11 => 30
  | 12 => 31
  | _ => 0

/-- Standard day of the year: `d` plus the lengths of the months `1 .. m-1`. -/
def stdDayOfYear (y : ℤ) (m : ℕ) (d : ℤ) : ℤ :=
  d + ∑ k in Finset.Ico 1 m, monthLength y k

/-! ## Angle utilities -/

section Core

variable {K : Type} [LinearOrderedField K] [FloorRing K]

/-- The C library functions used by `calcSunset`. -/
structure Trig (K : Type) where
  sin : K → K
  cos : K → K
  tan : K → K
  asin : K → K
  acos : K → K
  atan : K → K

/-- The constant `pi {3.141593}` of the class. -/
def pi : K := 3141593 / 1000000

/-- The constant `officialZenith {90.83333}`. -/
def officialZenith : K := 9083333 / 100000

/-- The constant `civilZenith {96.0}`. -/
def civilZenith : K := 96

/-- The constant `nauticalZenith {102.0}`. -/
def nauticalZenith : K := 102

/-- The constant `astronomicalZenith {108.0}`. -/
def astronomicalZenith : K := 108

/-- The function `deg2rad`. -/
def deg2rad (degrees : K) : K := degrees * pi / 180

/-- The function `rad2deg`. -/
def rad2deg (radians : K) : K := radians / (pi / 180)

/-- The function `AdjustTo360`: one correction step.  The additions are exact here; in
the source they round to `float`, so a result may land on the end point `360`. -/
def AdjustTo360 (i : K) : K :=
  if i > 360 then i - 360
  else if i < 0 then i + 360
  else i

/-- The function `AdjustTo24`: one correction step. -/
def AdjustTo24 (i : K) : K :=
  if i > 24 then i - 24
  else if i < 0 then i + 24
  else i

/-! ## The solar event calculator

The intermediate values of `calcSunset` are named first, one definition per step of the
source; `calcSunset` itself follows, transcribed line by line. -/

/-- The data members `m_lat`, `m_lon`, `m_zenith` set by the constructor. -/
structure Config (K : Type) where
  m_lat : K
  m_lon : K
  m_zenith : K

/-- Conversion of a value to `uint8_t`: truncation toward zero, reduced modulo `256`. -/
def toUInt8 (x : K) : ℕ :=
  ((if 0 ≤ x then ⌊x⌋ else ⌈x⌉) % 256).toNat

/-- The longitude as an hour value, `lonhour = m_lon / 15` (line 93). -/
def lonHour (c : Config K) : K := c.m_lon / 15

/-- The approximate time `t` (lines 95-99). -/
def approxTime (c : Config K) (doy : ℤ) (sunset : Bool) : K :=
  if sunset then (doy : K) + ((18 - lonHour c) / 24)
  else (doy : K) + ((6 - lonHour c) / 24)

/-- The Sun's mean anomaly `m` (line 102). -/
def meanAnomaly (c : Config K) (doy : ℤ) (sunset : Bool) : K :=
  (9856 / 10000) * approxTime c doy sunset - 3289 / 1000

/-- The argument of `AdjustTo360` on line 107. -/
def rawLongitude (T : Trig K) (c : Config K) (doy : ℤ) (sunset : Bool) : K :=
  let m := meanAnomaly c doy sunset
  let sinm := T.sin (deg2rad m)
  let sin2m := T.sin (2 * deg2rad m)
  m + ((1916 / 1000) * sinm) + ((2 / 100) * sin2m) + 282634 / 1000

/-- The Sun's true longitude `l` (line 107). -/
def trueLongitude (T : Trig K) (c : Config K) (doy : ℤ) (sunset : Bool) : K :=
  AdjustTo360 (rawLongitude T c doy sunset)

/-- Putting the RA value into the same quadrant as L (lines 114-116). -/
def quadrantAdjust (l ra : K) : K :=
  let lq := ((⌊l / 90⌋ : ℤ) : K) * 90
  let raq := ((⌊ra / 90⌋ : ℤ) : K) * 90
  ra + (lq - raq)

/-- The Sun's right ascension in hours (lines 110-119). -/
def rightAscension (T : Trig K) (l : K) : K :=
  let tanl := (91764 / 100000) * T.tan (deg2rad l)
  let ra := AdjustTo360 (rad2deg (T.atan tanl))
  quadrantAdjust l ra / 15

/-- The sine of the Sun's declination (line 122). -/
def sinDec (T : Trig K) (l : K) : K := (39782 / 100000) * T.sin (deg2rad l)

/-- The cosine of the Sun's local hour angle, `cosh` (lines 122-127). -/
def cosH (T : Trig K) (c : Config K) (doy : ℤ) (sunset : Bool) : K :=
  let l := trueLongitude T c doy sunset
  let sindec := sinDec T l
  let cosdec := T.cos (T.asin sindec)
  (T.cos (deg2rad c.m_zenith) - (sindec * T.sin (deg2rad c.m_lat)))
    / (cosdec * T.cos (deg2rad c.m_lat))

/-- The local hour angle in hours, `h` (lines 137-143). -/
def hourAngle (T : Trig K) (sunset : Bool) (cosh : K) : K :=
  (if sunset then rad2deg (T.acos cosh) else 360 - rad2deg (T.acos cosh)) / 15

/-- The argument of the last `AdjustTo24` (lines 146-152): the UTC time of the event
plus the UTC offset in hours. -/
def localTimeArg (T : Trig K) (c : Config K) (doy : ℤ) (sunset : Bool) (utcOffset : K) : K :=
  let t := approxTime c doy sunset
  let l := trueLongitude T c doy sunset
  let ra := rightAscension T l
  let h := hourAngle T sunset (cosH T c doy sunset)
  let t2 := h + ra - ((6571 / 100000) * t) - 6622 / 1000
  let ut := AdjustTo24 (t2 - lonHour c)
  ut + utcOffset

/-- The rounding term `0.00833333` of line 152. -/
def roundingBias : K := 833333 / 100000000

/-- The final time value `ut` of line 152, from the argument of the last `AdjustTo24`.
The addition is exact here; in the source it rounds to `float`. -/
def finalTime (x : K) : K := AdjustTo24 x + roundingBias

/-- Lines 155-158: the pair `(hourOut, minutesOut)` from the final time value `ut`. -/
def hourMinute (ut : K) : ℕ × ℕ :=
  let hourOut := toUInt8 ((⌊ut⌋ : ℤ) : K)
  let minutesOut := toUInt8 (60 * (ut - (hourOut : K)))
  (hourOut, minutesOut)

/-- The function `calcSunset`, line by line: the pair `(hourOut, minutesOut)`.  The
definitions above name the intermediate values of this body (`calcSunset_eq`). -/
def calcSunset (T : Trig K) (c : Config K) (doy : ℤ) (sunset : Bool) (utcOffset : K) : ℕ × ℕ :=
  let lonhour := c.m_lon / 15
  let t := if sunset then (doy : K) + ((18 - lonhour) / 24) else (doy : K) + ((6 - lonhour) / 24)
  let m := ((9856 / 10000) * t) - 3289 / 1000
  let sinm := T.sin (deg2rad m)
  let sin2m := T.sin (2 * deg2rad m)
  let l := AdjustTo360 (m + ((1916 / 1000) * sinm) + ((2 / 100) * sin2m) + 282634 / 1000)
  let tanl := (91764 / 100000) * T.tan (deg2rad l)
  let ra := AdjustTo360 (rad2deg (T.atan tanl))
  let lq := ((⌊l / 90⌋ : ℤ) : K) * 90
  let raq := ((⌊ra / 90⌋ : ℤ) : K) * 90
  let ra := ra + (lq - raq)
  let ra := ra / 15
  let sindec := (39782 / 100000) * T.sin (deg2rad l)
  let cosdec := T.cos (T.asin sindec)
  let cosh := (T.cos (deg2rad c.m_zenith) - (sindec * T.sin (deg2rad c.m_lat)))
    / (cosdec * T.cos (deg2rad c.m_lat))
  if cosh > 1 then (0, 0)
  else if cosh < -1 then (0, 0)
  else
    let h := if sunset then rad2deg (T.acos cosh) else 360 - rad2deg (T.acos cosh)
    let h := h / 15
    let t := h + ra - ((6571 / 100000) * t) - 6622 / 1000
    let ut := AdjustTo24 (t - lonhour)
    let ut := AdjustTo24 (ut + utcOffset) + 833333 / 100000000
    let hourOut := toUInt8 ((⌊ut⌋ : ℤ) : K)
    let minutesOut := toUInt8 (60 * (ut - (hourOut : K)))
    (hourOut, minutesOut)

/-! ## Output formatters -/

/-- The fields of TimeLib's `tmElements_t` read or written by the library and named by
the collaborator contract.  `Year` is the offset from 1970, as in TimeLib. -/
structure TmElements where
  Second : ℕ
  Minute : ℕ
  Hour : ℕ
  Day : ℕ
  Month : ℕ
  Year : ℕ
deriving DecidableEq, Repr

/-- The TimeLib functions called by the library; `time_t` is a natural number of seconds. -/
structure TimeLib where
  breakTime : ℕ → TmElements
  makeTime : TmElements → ℕ
  year : ℕ → ℤ
  month : ℕ → ℤ
  day : ℕ → ℤ

/-- The call `calcSunset(ord, sunset, fOffset, hour, minute)` made by both variants of
`calculate`: the computed hour and minute of the event. -/
def eventTime (L : TimeLib) (T : Trig K) (c : Config K) (t : ℕ) (utcOffset : ℤ)
    (sunset : Bool) : ℕ × ℕ :=
  calcSunset T c (ordinalDate (L.year t) (L.month t) (L.day t)) sunset ((utcOffset : K) / 60)

/-- The overload `calculate(time_t, int, int&, int&)`: the pair `(sunriseOut, sunsetOut)`
as `hhmm`. -/
def calculate (L : TimeLib) (T : Trig K) (c : Config K) (t : ℕ) (utcOffset : ℤ) : ℤ × ℤ :=
  let ord := ordinalDate (L.year t) (L.month t) (L.day t)
  let fOffset : K := (utcOffset : K) / 60
  let rise := calcSunset T c ord false fOffset
  let sunriseOut : ℤ := 100 * (rise.1 : ℤ) + (rise.2 : ℤ)
  let set := calcSunset T c ord true fOffset
  let sunsetOut : ℤ := 100 * (set.1 : ℤ) + (set.2 : ℤ)
  (sunriseOut, sunsetOut)

/-- The record `tm` passed to the first `makeTime` of `calculate(time_t, int, time_t&, time_t&)`. -/
def sunriseFields (L : TimeLib) (T : Trig K) (c : Config K) (t : ℕ) (utcOffset : ℤ) :
    TmElements :=
  let tm := L.breakTime t
  let ord := ordinalDate (L.year t) (L.month t) (L.day t)
  let fOffset : K := (utcOffset : K) / 60
  let rise := calcSunset T c ord false fOffset
  { tm with Hour := rise.1, Minute := rise.2, Second := 0 }

/-- The record `tm` passed to the second `makeTime`: the sunrise record with `Hour` and
`Minute` overwritten. -/
def sunsetFields (L : TimeLib) (T : Trig K) (c : Config K) (t : ℕ) (utcOffset : ℤ) :
    TmElements :=
  let tm := sunriseFields L T c t utcOffset
  let ord := ordinalDate (L.year t) (L.month t) (L.day t)
  let fOffset : K := (utcOffset : K) / 60
  let set := calcSunset T c ord true fOffset
  { tm with Hour := set.1, Minute := set.2 }

/-- The overload `calculate(time_t, int, time_t&, time_t&)`, line by line: the pair
`(sunriseOut, sunsetOut)`. -/
def calculateTime (L : TimeLib) (T : Trig K) (c : Config K) (t : ℕ) (utcOffset : ℤ) : ℕ × ℕ :=
  let tm := L.breakTime t
  let ord := ordinalDate (L.year t) (L.month t) (L.day t)
  let fOffset : K := (utcOffset : K) / 60
  let rise := calcSunset T c ord false fOffset
  let tm := { tm with Hour := rise.1, Minute := rise.2, Second := 0 }
  let sunriseOut := L.makeTime tm
  let set := calcSunset T c ord true fOffset
  let tm := { tm with Hour := set.1, Minute := set.2 }
  let sunsetOut := L.makeTime tm
  (sunriseOut, sunsetOut)

end Core

/-- The C library functions on the real numbers. -/
noncomputable def realTrig : Trig ℝ where
  sin := Real.sin
  cos := Real.cos
  tan := Real.tan
  asin := Real.arcsin
  acos := Real.arccos
  atan := Real.arctan

/-- Calendar fields accepted by the collaborator contract: a time of day and a date of
the Gregorian calendar, the year being `1970 + Year`. -/
def ValidFields (f : TmElements) : Prop :=
  f.Second ≤ 59 ∧ f.Minute ≤ 59 ∧ f.Hour ≤ 23 ∧ 1 ≤ f.Month ∧ f.Month ≤ 12 ∧
    1 ≤ f.Day ∧ (f.Day : ℤ) ≤ monthLength (1970 + (f.Year : ℤ)) f.Month

instance (f : TmElements) : Decidable (ValidFields f) := by
  unfold ValidFields; infer_instance

/-! ## A concrete calendar collaborator

The Gregorian calendar counted in seconds from 1970-01-01 00:00:00, in the manner of
TimeLib: `gregorianMakeTime` adds up whole years, whole months, days, hours, minutes and
seconds, `gregorianBreakTime` peels them off again. -/

/-- Number of days of the year `1970 + Y`. -/
def daysInYear (Y : ℕ) : ℕ := if specLeap (1970 + (Y : ℤ)) then 366 else 365

/-- Number of days of month `m` of the year `1970 + Y`. -/
def daysInMonth (Y m : ℕ) : ℕ := (monthLength (1970 + (Y : ℤ)) m).toNat

/-- Total length of the `n` periods starting at index `i`. -/
def cumul (len : ℕ → ℕ) : ℕ → ℕ → ℕ
  | _, 0 => 0
  | i, n + 1 => len i + cumul len (i + 1) n

/-- Removes whole periods from a day count `d`, starting at period `i`: the index of the
period that contains the day and the day's offset in it. -/
def peel (len : ℕ → ℕ) : ℕ → ℕ → ℕ → ℕ × ℕ
  | 0, i, d => (i, d)
  | fuel + 1, i, d => if d < len i then (i, d) else peel len fuel (i + 1) (d - len i)

/-- Seconds since the epoch of the calendar fields `f`. -/
def gregorianMakeTime (f : TmElements) : ℕ :=
  (cumul daysInYear 0 f.Year + cumul (daysInMonth f.Year) 1 (f.Month - 1) + (f.Day - 1)) * 86400
    + f.Hour * 3600 + f.Minute * 60 + f.Second

/-- Calendar fields of the time `t` in seconds since the epoch. -/
def gregorianBreakTime (t : ℕ) : TmElements :=
  let days := t / 86400
  let yr := peel daysInYear days 0 days
  let mr := peel (daysInMonth yr.1) 12 1 yr.2
  { Second := t % 60, Minute := t / 60 % 60, Hour := t / 3600 % 24,
    Day := mr.2 + 1, Month := mr.1, Year := yr.1 }

/-- The Gregorian calendar as a collaborator. -/
def gregorian : TimeLib where
  breakTime := gregorianBreakTime
  makeTime := gregorianMakeTime
  year t := 1970 + ((gregorianBreakTime t).Year : ℤ)
  month t := ((gregorianBreakTime t).Month : ℤ)
  day t := ((gregorianBreakTime t).Day : ℤ)

/-- The time 1970-04-10 12:00:00, in seconds since the epoch. -/
def noonApril10 : ℕ := 8596800

/-! ## Facts about the calendar collaborator -/

theorem peel_cumul (len : ℕ → ℕ) :
    ∀ (n fuel i r : ℕ), n ≤ fuel → r < len (i + n) →
      peel len fuel i (cumul len i n + r) = (i + n, r) := by
  intro n
  induction n with
  | zero =>
    intro fuel i r _ hr
    cases fuel with
    | zero => simp [peel, cumul]
    | succ f => simp only [peel, cumul, zero_add, add_zero] at hr ⊢; rw [if_pos hr]
  | succ n ih =>
    intro fuel i r hf hr
    cases fuel with
    | zero => omega
    | succ f =>
      have hlt : ¬ (cumul len i (n + 1) + r < len i) := by
        simp only [cumul]; omega
      have hsub : cumul len i (n + 1) + r - len i = cumul len (i + 1) n + r := by
        simp only [cumul]; omega
      rw [peel, if_neg hlt, hsub, ih f (i + 1) r (by omega) (by rwa [show i + 1 + n = i + (n + 1) by omega])]
      congr 1
      omega

theorem le_cumul_daysInYear (n i : ℕ) : n ≤ cumul daysInYear i n := by
  induction n generalizing i with
  | zero => simp [cumul]
  | succ n ih =>
    have h1 := ih (i + 1)
    have h2 : 365 ≤ daysInYear i := by unfold daysInYear; split_ifs <;> norm_num
    simp only [cumul]
    omega

theorem dayOfYear_lt (Y M D : ℕ) (hM1 : 1 ≤ M) (hM : M ≤ 12) (hD1 : 1 ≤ D)
    (hD : (D : ℤ) ≤ monthLength (1970 + (Y : ℤ)) M) :
    cumul (daysInMonth Y) 1 (M - 1) + (D - 1) < daysInYear Y ∧ D - 1 < daysInMonth Y M := by
  unfold daysInYear
  by_cases hleap : specLeap (1970 + (Y : ℤ))
  · interval_cases M <;> simp [cumul, daysInMonth, monthLength, hleap] at hD ⊢ <;> omega
  · interval_cases M <;> simp [cumul, daysInMonth, monthLength, hleap] at hD ⊢ <;> omega

/-- The Gregorian calendar satisfies the collaborator contract. -/
theorem gregorian_roundtrip (f : TmElements) (hf : ValidFields f) :
    gregorian.breakTime (gregorian.makeTime f) = f := by
  obtain ⟨hS, hMi, hH, hM1, hM, hD1, hD⟩ := hf
  obtain ⟨hdoy, hdom⟩ := dayOfYear_lt f.Year f.Month f.Day hM1 hM hD1 hD
  show gregorianBreakTime (gregorianMakeTime f) = f
  have hdays : gregorianMakeTime f / 86400 =
      cumul daysInYear 0 f.Year + (cumul (daysInMonth f.Year) 1 (f.Month - 1) + (f.Day - 1)) := by
    unfold gregorianMakeTime; omega
  have hy := peel_cumul daysInYear f.Year (gregorianMakeTime f / 86400) 0
    (cumul (daysInMonth f.Year) 1 (f.Month - 1) + (f.Day - 1))
    (by have := le_cumul_daysInYear f.Year 0; omega) (by rwa [zero_add])
  rw [← hdays, zero_add] at hy
  have hm := peel_cumul (daysInMonth f.Year) (f.Month - 1) 12 1 (f.Day - 1) (by omega)
    (by rwa [show 1 + (f.Month - 1) = f.Month by omega])
  rw [show 1 + (f.Month - 1) = f.Month by omega] at hm
  have hsec : gregorianMakeTime f % 60 = f.Second := by unfold gregorianMakeTime; omega
  have hmin : gregorianMakeTime f / 60 % 60 = f.Minute := by unfold gregorianMakeTime; omega
  have hhour : gregorianMakeTime f / 3600 % 24 = f.Hour := by unfold gregorianMakeTime; omega
  unfold gregorianBreakTime
  simp only [hy, hm, hsec, hmin, hhour]
  cases f
  simp only [TmElements.mk.injEq, true_and, and_true]
  simp only at hD1
  omega

/-- An hour field of 80 to 99 moves the timestamp three or four days on. -/
theorem gregorian_day_shift (h m : ℕ) (h80 : 80 ≤ h) (h99 : h ≤ 99) (hm : m ≤ 59) :
    (gregorianBreakTime (gregorianMakeTime ⟨0, m, h, 10, 4, 0⟩)).Day ≠ 10 := by
  have hb : cumul daysInYear 0 0 + cumul (daysInMonth 0) 1 (4 - 1) + (10 - 1) = 99 := by decide
  have hd : gregorianMakeTime ⟨0, m, h, 10, 4, 0⟩ / 86400 = 102 ∨
      gregorianMakeTime ⟨0, m, h, 10, 4, 0⟩ / 86400 = 103 := by
    simp only [gregorianMakeTime, hb]
    omega
  simp only [gregorianBreakTime]
  rcases hd with hd | hd <;> rw [hd] <;> decide

theorem isLeap_iff (y : ℤ) : isLeap y = true ↔ specLeap y := by
  unfold isLeap specLeap
  simp only [Bool.or_eq_true, Bool.and_eq_true, beq_iff_eq, bne_iff_ne, ne_eq]
  rw [← Int.dvd_iff_tmod_eq_zero, ← Int.dvd_iff_tmod_eq_zero, ← Int.dvd_iff_tmod_eq_zero]

theorem ordinalDate_noonApril10 :
    ordinalDate (gregorian.year noonApril10) (gregorian.month noonApril10)
      (gregorian.day noonApril10) = 100 := by
  have h : gregorianBreakTime noonApril10 = ⟨0, 0, 12, 10, 4, 0⟩ := by decide
  simp only [gregorian, h]
  norm_num [ordinalDate, isLeap, Int.floor_eq_iff, Int.tmod]

/-! ## Facts about the angle utilities and the calculator -/

section CoreFacts

variable {K : Type} [LinearOrderedField K]

theorem AdjustTo360_of_le (x : K) (h0 : 0 ≤ x) (h : x ≤ 360) : AdjustTo360 x = x := by
  unfold AdjustTo360
  rw [if_neg (not_lt.mpr h), if_neg (not_lt.mpr h0)]

theorem AdjustTo360_of_gt (x : K) (h : 360 < x) : AdjustTo360 x = x - 360 := by
  unfold AdjustTo360
  rw [if_pos h]

theorem AdjustTo360_of_neg (x : K) (h : x < 0) : AdjustTo360 x = x + 360 := by
  unfold AdjustTo360
  rw [if_neg (not_lt.mpr (by linarith)), if_pos h]

theorem AdjustTo24_of_le (x : K) (h0 : 0 ≤ x) (h : x ≤ 24) : AdjustTo24 x = x := by
  unfold AdjustTo24
  rw [if_neg (not_lt.mpr h), if_neg (not_lt.mpr h0)]

theorem AdjustTo24_of_gt (x : K) (h : 24 < x) : AdjustTo24 x = x - 24 := by
  unfold AdjustTo24
  rw [if_pos h]

theorem AdjustTo24_of_neg (x : K) (h : x < 0) : AdjustTo24 x = x + 24 := by
  unfold AdjustTo24
  rw [if_neg (not_lt.mpr (by linarith)), if_pos h]

theorem approxTime_bounds (c : Config K) (doy : ℤ) (sunset : Bool)
    (hl1 : -180 ≤ c.m_lon) (hl : c.m_lon ≤ 180) :
    (doy : K) - 1 / 4 ≤ approxTime c doy sunset ∧ approxTime c doy sunset ≤ (doy : K) + 5 / 4 := by
  unfold approxTime lonHour
  cases sunset
  · simp only [Bool.false_eq_true, if_false]
    constructor <;> linarith
  · simp only [if_true]
    constructor <;> linarith

theorem rawLongitude_bounds (T : Trig K) (hsin : ∀ x, |T.sin x| ≤ 1) (c : Config K) (doy : ℤ)
    (sunset : Bool) :
    meanAnomaly c doy sunset + 280698 / 1000 ≤ rawLongitude T c doy sunset ∧
      rawLongitude T c doy sunset ≤ meanAnomaly c doy sunset + 284570 / 1000 := by
  have h1 := abs_le.mp (hsin (deg2rad (meanAnomaly c doy sunset)))
  have h2 := abs_le.mp (hsin (2 * deg2rad (meanAnomaly c doy sunset)))
  simp only [rawLongitude]
  constructor <;> linarith [h1.1, h1.2, h2.1, h2.2]

theorem AdjustTo24_bounds (x : K) (hlo : -24 ≤ x) (hhi : x ≤ 48) :
    0 ≤ AdjustTo24 x ∧ AdjustTo24 x ≤ 24 := by
  rcases lt_or_le x 0 with hneg | hnn
  · rw [AdjustTo24_of_neg x hneg]
    constructor <;> linarith
  · rcases le_or_lt x 24 with hle | hgt
    · rw [AdjustTo24_of_le x hnn hle]
      exact ⟨hnn, hle⟩
    · rw [AdjustTo24_of_gt x hgt]
      constructor <;> linarith

/-- With an arc cosine between `0` and `pi`, the hour angle is between 0 h and 24 h. -/
theorem hourAngle_bounds (T : Trig K) (hacos : ∀ y, 0 ≤ T.acos y ∧ T.acos y ≤ pi)
    (sunset : Bool) (y : K) :
    0 ≤ hourAngle T sunset y ∧ hourAngle T sunset y ≤ 24 := by
  obtain ⟨h0, h1⟩ := hacos y
  have hpi : (0 : K) < pi / 180 := by unfold pi; norm_num
  have hd0 : 0 ≤ rad2deg (T.acos y) := div_nonneg h0 hpi.le
  have hd1 : rad2deg (T.acos y) ≤ 180 := by
    unfold rad2deg
    rw [div_le_iff₀ hpi]
    linarith
  unfold hourAngle
  cases sunset
  · simp only [Bool.false_eq_true, if_false]
    constructor
    · apply div_nonneg <;> linarith
    · rw [div_le_iff₀ (by norm_num)]; linarith
  · simp only [if_true]
    constructor
    · apply div_nonneg <;> linarith
    · rw [div_le_iff₀ (by norm_num)]; linarith

variable [FloorRing K]

theorem toUInt8_of_lt (x : K) (h0 : 0 ≤ x) (h : x < 256) : ((toUInt8 x : ℕ) : ℤ) = ⌊x⌋ := by
  unfold toUInt8
  rw [if_pos h0]
  have hf0 : 0 ≤ ⌊x⌋ := Int.floor_nonneg.mpr h0
  have hf : ⌊x⌋ < 256 := Int.floor_lt.mpr (by exact_mod_cast h)
  rw [Int.emod_eq_of_lt hf0 hf, Int.toNat_of_nonneg hf0]

theorem hourMinute_fst (ut : K) (h0 : 0 ≤ ut) (h : ut < 256) :
    (((hourMinute ut).1 : ℕ) : ℤ) = ⌊ut⌋ := by
  have hf0 : 0 ≤ ⌊ut⌋ := Int.floor_nonneg.mpr h0
  have hlt : ((⌊ut⌋ : ℤ) : K) < 256 := lt_of_le_of_lt (Int.floor_le ut) h
  show ((toUInt8 ((⌊ut⌋ : ℤ) : K) : ℕ) : ℤ) = ⌊ut⌋
  rw [toUInt8_of_lt _ (by exact_mod_cast hf0) hlt, Int.floor_intCast]

theorem hourMinute_snd (ut : K) (h0 : 0 ≤ ut) (h : ut < 256) :
    (((hourMinute ut).2 : ℕ) : ℤ) = ⌊60 * (ut - ((⌊ut⌋ : ℤ) : K))⌋ ∧
      0 ≤ 60 * (ut - ((⌊ut⌋ : ℤ) : K)) ∧ 60 * (ut - ((⌊ut⌋ : ℤ) : K)) < 60 := by
  have hfst := hourMinute_fst ut h0 h
  have hcast : (((hourMinute ut).1 : ℕ) : K) = ((⌊ut⌋ : ℤ) : K) := by
    rw [← hfst]; simp
  have hfl : ((⌊ut⌋ : ℤ) : K) ≤ ut := Int.floor_le ut
  have hfu : ut < ((⌊ut⌋ : ℤ) : K) + 1 := Int.lt_floor_add_one ut
  have hlo : 0 ≤ 60 * (ut - ((⌊ut⌋ : ℤ) : K)) := by linarith
  have hhi : 60 * (ut - ((⌊ut⌋ : ℤ) : K)) < 60 := by linarith
  refine ⟨?_, hlo, hhi⟩
  show ((toUInt8 (60 * (ut - (((hourMinute ut).1 : ℕ) : K))) : ℕ) : ℤ) = _
  rw [hcast, toUInt8_of_lt _ hlo (by linarith)]

theorem hourMinute_eq (ut : K) (hr mn : ℕ) (hmn : mn ≤ 59) (hhr : hr ≤ 255)
    (hlo : (hr : K) + (mn : K) / 60 ≤ ut) (hhi : ut < (hr : K) + ((mn : K) + 1) / 60) :
    hourMinute ut = (hr, mn) := by
  have hmnK : (mn : K) ≤ 59 := by exact_mod_cast hmn
  have hmn0 : (0 : K) ≤ (mn : K) := Nat.cast_nonneg mn
  have hhr0 : (0 : K) ≤ (hr : K) := Nat.cast_nonneg hr
  have hhrK : (hr : K) ≤ 255 := by exact_mod_cast hhr
  have h0 : 0 ≤ ut := by
    have : (0 : K) ≤ (mn : K) / 60 := by positivity
    linarith
  have h256 : ut < 256 := by linarith
  have hfl : ⌊ut⌋ = (hr : ℤ) := by
    rw [Int.floor_eq_iff]
    push_cast
    constructor <;> linarith
  have h1 := hourMinute_fst ut h0 h256
  obtain ⟨h2, -, -⟩ := hourMinute_snd ut h0 h256
  have hfm : ⌊60 * (ut - ((⌊ut⌋ : ℤ) : K))⌋ = (mn : ℤ) := by
    rw [hfl, Int.floor_eq_iff]
    push_cast
    constructor <;> linarith
  rw [hfl] at h1
  rw [hfm] at h2
  exact Prod.ext (by exact_mod_cast h1) (by exact_mod_cast h2)

theorem hourMinute_between (ut : K) (lo hi : ℕ) (hhi : hi ≤ 256) (h1 : (lo : K) ≤ ut)
    (h2 : ut < (hi : K)) :
    lo ≤ (hourMinute ut).1 ∧ (hourMinute ut).1 < hi ∧ (hourMinute ut).2 ≤ 59 := by
  have h0 : 0 ≤ ut := le_trans (Nat.cast_nonneg lo) h1
  have h256 : ut < 256 := lt_of_lt_of_le h2 (by exact_mod_cast hhi)
  have hfst := hourMinute_fst ut h0 h256
  obtain ⟨hsnd, -, hlt⟩ := hourMinute_snd ut h0 h256
  have hlo : (lo : ℤ) ≤ ⌊ut⌋ := Int.le_floor.mpr (by exact_mod_cast h1)
  have hhi2 : ⌊ut⌋ < (hi : ℤ) := Int.floor_lt.mpr (by exact_mod_cast h2)
  have hm : ⌊60 * (ut - ((⌊ut⌋ : ℤ) : K))⌋ < 60 := Int.floor_lt.mpr (by exact_mod_cast hlt)
  refine ⟨?_, ?_, ?_⟩ <;> omega

theorem quadrantAdjust_bounds (l ra : K) :
    ((⌊l / 90⌋ : ℤ) : K) * 90 ≤ quadrantAdjust l ra ∧
      quadrantAdjust l ra < ((⌊l / 90⌋ : ℤ) : K) * 90 + 90 := by
  have h1 : ((⌊ra / 90⌋ : ℤ) : K) ≤ ra / 90 := Int.floor_le _
  have h2 : ra / 90 < ((⌊ra / 90⌋ : ℤ) : K) + 1 := Int.lt_floor_add_one _
  have h3 : ((⌊ra / 90⌋ : ℤ) : K) * 90 ≤ ra := by
    have := (le_div_iff₀ (by norm_num : (0 : K) < 90)).mp h1
    linarith
  have h4 : ra < (((⌊ra / 90⌋ : ℤ) : K) + 1) * 90 :=
    (div_lt_iff₀ (by norm_num : (0 : K) < 90)).mp h2
  unfold quadrantAdjust
  constructor <;> linarith

theorem localTimeArg_add (T : Trig K) (c : Config K) (doy : ℤ) (sunset : Bool) (utcOffset : K) :
    localTimeArg T c doy sunset utcOffset = localTimeArg T c doy sunset 0 + utcOffset := by
  simp only [localTimeArg, add_zero]

/-- The right ascension in hours is within 6 h of the true longitude in hours. -/
theorem rightAscension_bounds (T : Trig K) (l : K) :
    l / 15 - 6 < rightAscension T l ∧ rightAscension T l < l / 15 + 6 := by
  obtain ⟨hq1, hq2⟩ := quadrantAdjust_bounds l
    (AdjustTo360 (rad2deg (T.atan ((91764 / 100000) * T.tan (deg2rad l)))))
  have h1 : ((⌊l / 90⌋ : ℤ) : K) ≤ l / 90 := Int.floor_le _
  have h2 : l / 90 < ((⌊l / 90⌋ : ℤ) : K) + 1 := Int.lt_floor_add_one _
  have h3 : ((⌊l / 90⌋ : ℤ) : K) * 90 ≤ l := by
    have := (le_div_iff₀ (by norm_num : (0 : K) < 90)).mp h1
    linarith
  have h4 : l < (((⌊l / 90⌋ : ℤ) : K) + 1) * 90 :=
    (div_lt_iff₀ (by norm_num : (0 : K) < 90)).mp h2
  have hra : rightAscension T l = quadrantAdjust l
      (AdjustTo360 (rad2deg (T.atan ((91764 / 100000) * T.tan (deg2rad l))))) / 15 := rfl
  rw [hra]
  constructor
  · rw [lt_div_iff₀ (by norm_num)]; linarith
  · rw [div_lt_iff₀ (by norm_num)]; linarith

/-- For a day of the year in `[1, 366]` and a longitude in `[-180, 180]`, the UTC time of
the event after the first `AdjustTo24` is between -7 h and 31 h. -/
theorem utcTime_bounds (T : Trig K) (hsin : ∀ x, |T.sin x| ≤ 1)
    (hacos : ∀ y, 0 ≤ T.acos y ∧ T.acos y ≤ pi) (c : Config K) (doy : ℤ) (sunset : Bool)
    (hd1 : 1 ≤ doy) (hd : doy ≤ 366) (hl1 : -180 ≤ c.m_lon) (hl : c.m_lon ≤ 180) :
    -7 ≤ localTimeArg T c doy sunset 0 ∧ localTimeArg T c doy sunset 0 ≤ 31 := by
  obtain ⟨ht1, ht2⟩ := approxTime_bounds c doy sunset hl1 hl
  obtain ⟨hr1, hr2⟩ := rawLongitude_bounds T hsin c doy sunset
  obtain ⟨hh1, hh2⟩ := hourAngle_bounds T hacos sunset (cosH T c doy sunset)
  obtain ⟨ha1, ha2⟩ := rightAscension_bounds T (trueLongitude T c doy sunset)
  have hd1K : (1 : K) ≤ (doy : K) := by exact_mod_cast hd1
  have hdK : (doy : K) ≤ 366 := by exact_mod_cast hd
  have hm : meanAnomaly c doy sunset =
      (9856 / 10000) * approxTime c doy sunset - 3289 / 1000 := rfl
  have hlon1 : -12 ≤ lonHour c := by unfold lonHour; linarith
  have hlon2 : lonHour c ≤ 12 := by unfold lonHour; linarith
  have hpos : 0 < rawLongitude T c doy sunset := by linarith
  have hL : rawLongitude T c doy sunset - 360 ≤ trueLongitude T c doy sunset ∧
      trueLongitude T c doy sunset ≤ rawLongitude T c doy sunset := by
    unfold trueLongitude
    rcases le_or_lt (rawLongitude T c doy sunset) 360 with h | h
    · rw [AdjustTo360_of_le _ hpos.le h]; constructor <;> linarith
    · rw [AdjustTo360_of_gt _ h]; constructor <;> linarith
  have hval : localTimeArg T c doy sunset 0 =
      AdjustTo24 (hourAngle T sunset (cosH T c doy sunset)
        + rightAscension T (trueLongitude T c doy sunset)
        - ((6571 / 100000) * approxTime c doy sunset) - 6622 / 1000 - lonHour c) := by
    simp only [localTimeArg, add_zero]
  have hy1 : -31 ≤ hourAngle T sunset (cosH T c doy sunset)
        + rightAscension T (trueLongitude T c doy sunset)
        - ((6571 / 100000) * approxTime c doy sunset) - 6622 / 1000 - lonHour c := by
    linarith [hL.1]
  have hy2 : hourAngle T sunset (cosH T c doy sunset)
        + rightAscension T (trueLongitude T c doy sunset)
        - ((6571 / 100000) * approxTime c doy sunset) - 6622 / 1000 - lonHour c ≤ 55 := by
    linarith [hL.2]
  rw [hval]
  generalize hourAngle T sunset (cosH T c doy sunset)
        + rightAscension T (trueLongitude T c doy sunset)
        - ((6571 / 100000) * approxTime c doy sunset) - 6622 / 1000 - lonHour c = y at hy1 hy2
  rcases lt_or_le y 0 with hneg | hnn
  · rw [AdjustTo24_of_neg y hneg]
    constructor <;> linarith
  · rcases le_or_lt y 24 with hle | hgt
    · rw [AdjustTo24_of_le y hnn hle]
      constructor <;> linarith
    · rw [AdjustTo24_of_gt y hgt]
      constructor <;> linarith

/-- The body of `calcSunset` in terms of its named intermediate values. -/
theorem calcSunset_eq (T : Trig K) (c : Config K) (doy : ℤ) (sunset : Bool) (utcOffset : K) :
    calcSunset T c doy sunset utcOffset =
      if cosH T c doy sunset > 1 then (0, 0)
      else if cosH T c doy sunset < -1 then (0, 0)
      else hourMinute (finalTime (localTimeArg T c doy sunset utcOffset)) := by
  cases sunset <;> rfl

/-- The two timestamps of `calculateTime` are `makeTime` of the two records. -/
theorem calculateTime_eq (L : TimeLib) (T : Trig K) (c : Config K) (t : ℕ) (utcOffset : ℤ) :
    calculateTime L T c t utcOffset =
      (L.makeTime (sunriseFields L T c t utcOffset),
        L.makeTime (sunsetFields L T c t utcOffset)) :=
  rfl

theorem calcSunset_main (T : Trig K) (c : Config K) (doy : ℤ) (sunset : Bool) (utcOffset : K)
    (h1 : ¬ (cosH T c doy sunset > 1)) (h2 : ¬ (cosH T c doy sunset < -1)) :
    calcSunset T c doy sunset utcOffset =
      hourMinute (finalTime (localTimeArg T c doy sunset utcOffset)) := by
  rw [calcSunset_eq]
  simp only [if_neg h1, if_neg h2]

theorem calculate_fst (L : TimeLib) (T : Trig K) (c : Config K) (t : ℕ) (utcOffset : ℤ) :
    (calculate L T c t utcOffset).1 =
      100 * ((eventTime L T c t utcOffset false).1 : ℤ) + ((eventTime L T c t utcOffset false).2 : ℤ) :=
  rfl

theorem calculate_snd (L : TimeLib) (T : Trig K) (c : Config K) (t : ℕ) (utcOffset : ℤ) :
    (calculate L T c t utcOffset).2 =
      100 * ((eventTime L T c t utcOffset true).1 : ℤ) + ((eventTime L T c t utcOffset true).2 : ℤ) :=
  rfl

theorem sunriseFields_eq (L : TimeLib) (T : Trig K) (c : Config K) (t : ℕ) (utcOffset : ℤ) :
    sunriseFields L T c t utcOffset =
      { L.breakTime t with
        Hour := (eventTime L T c t utcOffset false).1,
        Minute := (eventTime L T c t utcOffset false).2,
        Second := 0 } :=
  rfl

theorem sunsetFields_eq (L : TimeLib) (T : Trig K) (c : Config K) (t : ℕ) (utcOffset : ℤ) :
    sunsetFields L T c t utcOffset =
      { L.breakTime t with
        Hour := (eventTime L T c t utcOffset true).1,
        Minute := (eventTime L T c t utcOffset true).2,
        Second := 0 } :=
  rfl

/-- The record passed to `makeTime` for either event. -/
theorem eventFields_valid (L : TimeLib) (T : Trig K) (c : Config K) (t : ℕ) (utcOffset : ℤ)
    (sunset : Bool) (hdate : ValidFields (L.breakTime t))
    (hev : (eventTime L T c t utcOffset sunset).1 ≤ 23 ∧ (eventTime L T c t utcOffset sunset).2 ≤ 59) :
    ValidFields { L.breakTime t with
        Hour := (eventTime L T c t utcOffset sunset).1,
        Minute := (eventTime L T c t utcOffset sunset).2,
        Second := 0 } := by
  obtain ⟨-, -, -, hM1, hM, hD1, hD⟩ := hdate
  exact ⟨Nat.zero_le _, hev.2, hev.1, hM1, hM, hD1, hD⟩

/-- The timestamp of either event decomposes to the record passed to `makeTime`. -/
theorem breakTime_event (L : TimeLib) (T : Trig K) (c : Config K) (t : ℕ) (utcOffset : ℤ)
    (sunset : Bool)
    (hcontract : ∀ f : TmElements, ValidFields f → L.breakTime (L.makeTime f) = f)
    (hdate : ValidFields (L.breakTime t))
    (hev : (eventTime L T c t utcOffset sunset).1 ≤ 23 ∧ (eventTime L T c t utcOffset sunset).2 ≤ 59) :
    L.breakTime (if sunset then (calculateTime L T c t utcOffset).2
        else (calculateTime L T c t utcOffset).1) =
      { L.breakTime t with
        Hour := (eventTime L T c t utcOffset sunset).1,
        Minute := (eventTime L T c t utcOffset sunset).2,
        Second := 0 } := by
  have hv := eventFields_valid L T c t utcOffset sunset hdate hev
  cases sunset
  · simp only [Bool.false_eq_true, if_false, calculateTime_eq, sunriseFields_eq]
    exact hcontract _ hv
  · simp only [if_true, calculateTime_eq, sunsetFields_eq]
    exact hcontract _ hv

end CoreFacts

/-! ## Facts that use the real trigonometric functions -/

section RealFacts

/-- The real arc cosine lies between `0` and the constant `pi` of the class. -/
theorem realTrig_acos_bounds (y : ℝ) : 0 ≤ realTrig.acos y ∧ realTrig.acos y ≤ pi := by
  have hpi := Real.pi_lt_d6
  constructor
  · exact Real.arccos_nonneg y
  · have h := Real.arccos_le_pi y
    show Real.arccos y ≤ 3141593 / 1000000
    linarith

open Real in
theorem sin_ge_of_near_pi_div_two (x : ℝ) (h1 : 15 / 10 ≤ x) (h2 : x ≤ 164 / 100) :
    997 / 1000 ≤ Real.sin x := by
  have hpi1 := Real.pi_gt_d6
  have hpi2 := Real.pi_lt_d6
  have hcos := @Real.one_sub_sq_div_two_le_cos (x - π / 2)
  rw [Real.cos_sub_pi_div_two] at hcos
  have ha : -(71 / 1000) ≤ x - π / 2 := by linarith
  have hb : x - π / 2 ≤ 7 / 100 := by linarith
  have hsq : (x - π / 2) ^ 2 ≤ (71 / 1000) ^ 2 := by
    apply sq_le_sq'
    · linarith
    · linarith
  linarith [hsq]

/-- The circumpolar case: at latitude 75 N with the official zenith, on day 172, the
cosine of the hour angle is below `-1` for every longitude in `[-180, 180]`. -/
theorem cosH_circumpolar (lon : ℝ) (hl1 : -180 ≤ lon) (hl : lon ≤ 180) (sunset : Bool) :
    cosH realTrig ⟨75, lon, officialZenith⟩ 172 sunset < -1 := by
  have hpi1 := Real.pi_gt_d6
  have hpi2 := Real.pi_lt_d6
  set c : Config ℝ := ⟨75, lon, officialZenith⟩ with hc
  obtain ⟨ht1, ht2⟩ := approxTime_bounds c 172 sunset hl1 hl
  obtain ⟨hr1, hr2⟩ := rawLongitude_bounds realTrig (fun x => Real.abs_sin_le_one x) c 172 sunset
  have hm : meanAnomaly c 172 sunset =
      (9856 / 10000) * approxTime c 172 sunset - 3289 / 1000 := rfl
  push_cast at ht1 ht2
  have hraw1 : 446 < rawLongitude realTrig c 172 sunset := by linarith
  have hraw2 : rawLongitude realTrig c 172 sunset < 453 := by linarith
  have hl_eq : trueLongitude realTrig c 172 sunset = rawLongitude realTrig c 172 sunset - 360 := by
    unfold trueLongitude
    exact AdjustTo360_of_gt _ (by linarith)
  -- the sine of the true longitude
  have hsinl : 997 / 1000 ≤ Real.sin (deg2rad (trueLongitude realTrig c 172 sunset)) := by
    apply sin_ge_of_near_pi_div_two
    · rw [hl_eq]; unfold deg2rad pi; linarith
    · rw [hl_eq]; unfold deg2rad pi; linarith
  have hsinl1 : Real.sin (deg2rad (trueLongitude realTrig c 172 sunset)) ≤ 1 := Real.sin_le_one _
  -- the latitude terms
  have hlatrad : deg2rad (75 : ℝ) = 1308997083 / 1000000000 + 1 / 3000000000 := by
    unfold deg2rad pi; norm_num
  have hsinlat : 96 / 100 ≤ Real.sin (deg2rad (75 : ℝ)) := by
    have hcos := @Real.one_sub_sq_div_two_le_cos (deg2rad (75 : ℝ) - Real.pi / 2)
    rw [Real.cos_sub_pi_div_two] at hcos
    have hsq : (deg2rad (75 : ℝ) - Real.pi / 2) ^ 2 ≤ (27 / 100) ^ 2 := by
      apply sq_le_sq' <;> rw [hlatrad] <;> linarith
    linarith [hsq]
  have hcoslat_pos : 0 < Real.cos (deg2rad (75 : ℝ)) := by
    apply Real.cos_pos_of_mem_Ioo
    constructor <;> rw [hlatrad] <;> linarith
  have hcoslat_le : Real.cos (deg2rad (75 : ℝ)) ≤ 27 / 100 := by
    rw [← Real.sin_pi_div_two_sub]
    have := @Real.sin_le (Real.pi / 2 - deg2rad (75 : ℝ)) (by rw [hlatrad]; linarith)
    rw [hlatrad] at this ⊢
    linarith
  -- the zenith term
  have hcosz : Real.cos (deg2rad (officialZenith : ℝ)) ≤ 0 := by
    apply Real.cos_nonpos_of_pi_div_two_le_of_le <;> unfold deg2rad pi officialZenith <;>
      linarith
  -- the declination terms
  have hsd : sinDec realTrig (trueLongitude realTrig c 172 sunset) =
      (39782 / 100000) * Real.sin (deg2rad (trueLongitude realTrig c 172 sunset)) := rfl
  have hcd_le : Real.cos (Real.arcsin (sinDec realTrig (trueLongitude realTrig c 172 sunset))) ≤ 1 :=
    Real.cos_le_one _
  have hcd_pos : 0 < Real.cos (Real.arcsin (sinDec realTrig (trueLongitude realTrig c 172 sunset))) := by
    rw [Real.cos_arcsin]
    apply Real.sqrt_pos.mpr
    rw [hsd]
    nlinarith
  have hden_pos : 0 < Real.cos (Real.arcsin (sinDec realTrig (trueLongitude realTrig c 172 sunset)))
      * Real.cos (deg2rad (75 : ℝ)) := mul_pos hcd_pos hcoslat_pos
  show (Real.cos (deg2rad (officialZenith : ℝ))
      - sinDec realTrig (trueLongitude realTrig c 172 sunset) * Real.sin (deg2rad (75 : ℝ)))
      / (Real.cos (Real.arcsin (sinDec realTrig (trueLongitude realTrig c 172 sunset)))
          * Real.cos (deg2rad (75 : ℝ))) < -1
  rw [div_lt_iff₀ hden_pos]
  have hp1 : (997 / 1000 : ℝ) * (96 / 100) ≤
      Real.sin (deg2rad (trueLongitude realTrig c 172 sunset)) * Real.sin (deg2rad (75 : ℝ)) :=
    mul_le_mul hsinl hsinlat (by norm_num) (by linarith)
  have hp2 : Real.cos (Real.arcsin (sinDec realTrig (trueLongitude realTrig c 172 sunset)))
      * Real.cos (deg2rad (75 : ℝ)) ≤ 1 * (27 / 100) :=
    mul_le_mul hcd_le hcoslat_le hcoslat_pos.le (by norm_num)
  rw [hsd] at hp2 ⊢
  linarith

/-- At the equator the cosine of the hour angle for the official zenith is slightly
negative, whatever the day and the event. -/
theorem cosH_equator (doy : ℤ) (sunset : Bool) :
    -(17 / 1000) ≤ cosH realTrig ⟨0, 0, officialZenith⟩ doy sunset ∧
      cosH realTrig ⟨0, 0, officialZenith⟩ doy sunset ≤ 0 := by
  have hpi1 := Real.pi_gt_d6
  have hpi2 := Real.pi_lt_d6
  set c : Config ℝ := ⟨0, 0, officialZenith⟩ with hc
  set sd := sinDec realTrig (trueLongitude realTrig c doy sunset) with hsd
  have hsd_abs : sd ^ 2 ≤ (39782 / 100000) ^ 2 := by
    have h1 := Real.neg_one_le_sin (deg2rad (trueLongitude realTrig c doy sunset))
    have h2 := Real.sin_le_one (deg2rad (trueLongitude realTrig c doy sunset))
    have e : sd = (39782 / 100000) * Real.sin (deg2rad (trueLongitude realTrig c doy sunset)) := rfl
    rw [e]
    apply sq_le_sq'
    · linarith
    · linarith
  have hcd : 9 / 10 ≤ Real.cos (Real.arcsin sd) := by
    rw [Real.cos_arcsin]
    apply Real.le_sqrt_of_sq_le
    norm_num at hsd_abs ⊢
    linarith
  have hcd1 : Real.cos (Real.arcsin sd) ≤ 1 := Real.cos_le_one _
  have hzrad : deg2rad (officialZenith : ℝ) - Real.pi / 2 ≤ 146 / 10000 ∧
      0 ≤ deg2rad (officialZenith : ℝ) - Real.pi / 2 := by
    unfold deg2rad pi officialZenith
    constructor <;> linarith
  have hcz : Real.cos (deg2rad (officialZenith : ℝ)) =
      - Real.sin (deg2rad (officialZenith : ℝ) - Real.pi / 2) := by
    rw [Real.sin_sub_pi_div_two, neg_neg]
  have hs1 : Real.sin (deg2rad (officialZenith : ℝ) - Real.pi / 2) ≤ 146 / 10000 :=
    le_trans (Real.sin_le hzrad.2) hzrad.1
  have hs0 : 0 ≤ Real.sin (deg2rad (officialZenith : ℝ) - Real.pi / 2) :=
    Real.sin_nonneg_of_nonneg_of_le_pi hzrad.2 (by linarith [hzrad.1])
  have hlat : deg2rad (0 : ℝ) = 0 := by unfold deg2rad; simp
  have hval : cosH realTrig c doy sunset =
      Real.cos (deg2rad (officialZenith : ℝ)) / Real.cos (Real.arcsin sd) := by
    show (Real.cos (deg2rad (officialZenith : ℝ)) - sd * Real.sin (deg2rad (0 : ℝ)))
      / (Real.cos (Real.arcsin sd) * Real.cos (deg2rad (0 : ℝ))) = _
    rw [hlat, Real.sin_zero, Real.cos_zero, mul_zero, sub_zero, mul_one]
  have hcdpos : 0 < Real.cos (Real.arcsin sd) := by linarith
  rw [hval, hcz]
  constructor
  · rw [le_div_iff₀ hcdpos]
    nlinarith
  · apply div_nonpos_of_nonpos_of_nonneg
    · linarith
    · exact hcdpos.le

/-- The hour angle in degrees at the equator stays within a degree and a half of `90`. -/
theorem arccos_equator (doy : ℤ) (sunset : Bool) :
    8999 / 100 ≤ rad2deg (Real.arccos (cosH realTrig ⟨0, 0, officialZenith⟩ doy sunset)) ∧
      rad2deg (Real.arccos (cosH realTrig ⟨0, 0, officialZenith⟩ doy sunset)) ≤ 915 / 10 := by
  have hpi1 := Real.pi_gt_d6
  have hpi2 := Real.pi_lt_d6
  obtain ⟨h1, h2⟩ := cosH_equator doy sunset
  set x := cosH realTrig ⟨0, 0, officialZenith⟩ doy sunset with hx
  have hasin0 : Real.arcsin x ≤ 0 := Real.arcsin_nonpos.mpr h2
  have hasin1 : -(2 / 100) ≤ Real.arcsin x := by
    rw [Real.le_arcsin_iff_sin_le ⟨by linarith, by linarith⟩ ⟨by linarith, by linarith⟩]
    rw [Real.sin_neg]
    have := @Real.sin_gt_sub_cube (2 / 100 : ℝ) (by norm_num) (by norm_num)
    norm_num at this
    linarith
  rw [Real.arccos_eq_pi_div_two_sub_arcsin]
  unfold rad2deg pi
  constructor
  · rw [le_div_iff₀ (by norm_num)]
    linarith
  · rw [div_le_iff₀ (by norm_num)]
    linarith

/-- On day 100 at the equator (longitude 0) the true longitude is in the first quadrant. -/
theorem trueLongitude_equator (sunset : Bool) :
    16 ≤ trueLongitude realTrig ⟨0, 0, officialZenith⟩ 100 sunset ∧
      trueLongitude realTrig ⟨0, 0, officialZenith⟩ 100 sunset ≤ 21 := by
  set c : Config ℝ := ⟨0, 0, officialZenith⟩ with hc
  obtain ⟨hr1, hr2⟩ := rawLongitude_bounds realTrig (fun x => Real.abs_sin_le_one x) c 100 sunset
  have hm : meanAnomaly c 100 sunset =
      (9856 / 10000) * approxTime c 100 sunset - 3289 / 1000 := rfl
  obtain ⟨ht1, ht2⟩ : (100 : ℝ) + 1 / 4 ≤ approxTime c 100 sunset ∧
      approxTime c 100 sunset ≤ 100 + 3 / 4 := by
    cases sunset <;> norm_num [approxTime, lonHour, hc]
  have hgt : 360 < rawLongitude realTrig c 100 sunset := by linarith
  unfold trueLongitude
  rw [AdjustTo360_of_gt _ hgt]
  constructor <;> linarith

/-- On day 100 at the equator (longitude 0, official zenith) the UTC time of either event
is between 4 h and 23 h. -/
theorem utc_equator (sunset : Bool) :
    4 ≤ localTimeArg realTrig ⟨0, 0, officialZenith⟩ 100 sunset 0 ∧
      localTimeArg realTrig ⟨0, 0, officialZenith⟩ 100 sunset 0 ≤ 23 := by
  set c : Config ℝ := ⟨0, 0, officialZenith⟩ with hc
  obtain ⟨hl1, hl2⟩ := trueLongitude_equator sunset
  obtain ⟨ha1, ha2⟩ := arccos_equator 100 sunset
  rw [← hc] at hl1 hl2 ha1 ha2
  set l := trueLongitude realTrig c 100 sunset with hl
  have hfl : ⌊l / 90⌋ = 0 := by
    rw [Int.floor_eq_iff]
    constructor
    · push_cast; linarith
    · push_cast; linarith
  obtain ⟨hq1, hq2⟩ := quadrantAdjust_bounds l
    (AdjustTo360 (rad2deg (Real.arctan ((91764 / 100000) * Real.tan (deg2rad l)))))
  rw [hfl] at hq1 hq2
  push_cast at hq1 hq2
  have hra : rightAscension realTrig l = quadrantAdjust l
      (AdjustTo360 (rad2deg (Real.arctan ((91764 / 100000) * Real.tan (deg2rad l))))) / 15 := rfl
  have hlon : lonHour c = 0 := by simp [lonHour, hc]
  have hval : localTimeArg realTrig c 100 sunset 0 =
      AdjustTo24 (hourAngle realTrig sunset (cosH realTrig c 100 sunset) + rightAscension realTrig l
        - ((6571 / 100000) * approxTime c 100 sunset) - 6622 / 1000 - lonHour c) + 0 := rfl
  rw [hval, hlon, hra, add_zero, sub_zero]
  cases sunset
  · have ht : approxTime c 100 false = 100 + 1 / 4 := by
      norm_num [approxTime, lonHour, hc]
    have hh : hourAngle realTrig false (cosH realTrig c 100 false) =
        (360 - rad2deg (Real.arccos (cosH realTrig c 100 false))) / 15 := by
      simp [hourAngle, realTrig]
    rw [ht, hh]
    rw [AdjustTo24_of_le _ (by linarith) (by linarith)]
    constructor <;> linarith
  · have ht : approxTime c 100 true = 100 + 3 / 4 := by
      norm_num [approxTime, lonHour, hc]
    have hh : hourAngle realTrig true (cosH realTrig c 100 true) =
        rad2deg (Real.arccos (cosH realTrig c 100 true)) / 15 := by
      simp [hourAngle, realTrig]
    rw [ht, hh]
    rw [AdjustTo24_of_neg _ (by linarith)]
    constructor <;> linarith

/-- On day 100 at the equator with a zero UTC offset both events take the main path of
`calcSunset` and the final time value is a time of day. -/
theorem main_path_equator (sunset : Bool) :
    ¬ (cosH realTrig ⟨0, 0, officialZenith⟩ 100 sunset > 1) ∧
      ¬ (cosH realTrig ⟨0, 0, officialZenith⟩ 100 sunset < -1) ∧
      0 ≤ finalTime (localTimeArg realTrig ⟨0, 0, officialZenith⟩ 100 sunset 0) ∧
      finalTime (localTimeArg realTrig ⟨0, 0, officialZenith⟩ 100 sunset 0) < 24 := by
  obtain ⟨hc1, hc2⟩ := cosH_equator 100 sunset
  obtain ⟨hu1, hu2⟩ := utc_equator sunset
  refine ⟨by linarith, by linarith, ?_, ?_⟩
  · unfold finalTime roundingBias
    rw [AdjustTo24_of_le _ (by linarith) (by linarith)]
    linarith
  · unfold finalTime roundingBias
    rw [AdjustTo24_of_le _ (by linarith) (by linarith)]
    linarith

/-- On day 100 at the equator with a UTC offset of 100 hours both events take the main
path and the final time value is beyond 24 hours. -/
theorem big_offset_equator (sunset : Bool) :
    ¬ (cosH realTrig ⟨0, 0, officialZenith⟩ 100 sunset > 1) ∧
      ¬ (cosH realTrig ⟨0, 0, officialZenith⟩ 100 sunset < -1) ∧
      80 ≤ finalTime (localTimeArg realTrig ⟨0, 0, officialZenith⟩ 100 sunset 100) ∧
      finalTime (localTimeArg realTrig ⟨0, 0, officialZenith⟩ 100 sunset 100) < 100 := by
  obtain ⟨hc1, hc2⟩ := cosH_equator 100 sunset
  obtain ⟨hu1, hu2⟩ := utc_equator sunset
  rw [localTimeArg_add]
  refine ⟨by linarith, by linarith, ?_, ?_⟩
  · unfold finalTime roundingBias
    rw [AdjustTo24_of_gt _ (by linarith)]
    linarith
  · unfold finalTime roundingBias
    rw [AdjustTo24_of_gt _ (by linarith)]
    linarith

/-- With a zero UTC offset both events of day 100 at the equator are times of day. -/
theorem calcSunset_equator (sunset : Bool) :
    (calcSunset realTrig ⟨0, 0, officialZenith⟩ 100 sunset 0).1 ≤ 23 ∧
      (calcSunset realTrig ⟨0, 0, officialZenith⟩ 100 sunset 0).2 ≤ 59 := by
  obtain ⟨h1, h2, h3, h4⟩ := main_path_equator sunset
  rw [calcSunset_main _ _ _ _ _ h1 h2]
  have h3c : ((0 : ℕ) : ℝ) ≤
      finalTime (localTimeArg realTrig ⟨0, 0, officialZenith⟩ 100 sunset 0) := by
    rw [Nat.cast_zero]; exact h3
  have h4c : finalTime (localTimeArg realTrig ⟨0, 0, officialZenith⟩ 100 sunset 0) <
      ((24 : ℕ) : ℝ) := by
    rw [Nat.cast_ofNat]; exact h4
  obtain ⟨-, hb, hc⟩ := hourMinute_between _ 0 24 (by norm_num) h3c h4c
  exact ⟨by omega, hc⟩

/-- With a UTC offset of 100 hours both events of day 100 at the equator get an hour
between 80 and 99. -/
theorem calcSunset_equator_big (sunset : Bool) :
    80 ≤ (calcSunset realTrig ⟨0, 0, officialZenith⟩ 100 sunset 100).1 ∧
      (calcSunset realTrig ⟨0, 0, officialZenith⟩ 100 sunset 100).1 ≤ 99 ∧
      (calcSunset realTrig ⟨0, 0, officialZenith⟩ 100 sunset 100).2 ≤ 59 := by
  obtain ⟨h1, h2, h3, h4⟩ := big_offset_equator sunset
  rw [calcSunset_main _ _ _ _ _ h1 h2]
  have h3c : ((80 : ℕ) : ℝ) ≤
      finalTime (localTimeArg realTrig ⟨0, 0, officialZenith⟩ 100 sunset 100) := by
    rw [Nat.cast_ofNat]; exact h3
  have h4c : finalTime (localTimeArg realTrig ⟨0, 0, officialZenith⟩ 100 sunset 100) <
      ((100 : ℕ) : ℝ) := by
    rw [Nat.cast_ofNat]; exact h4
  obtain ⟨ha, hb, hc⟩ := hourMinute_between _ 80 100 (by norm_num) h3c h4c
  exact ⟨ha, by omega, hc⟩

/-- With a zero UTC offset both events of 1970-04-10 at the equator are times of day. -/
theorem eventTime_equator (sunset : Bool) :
    (eventTime gregorian realTrig ⟨0, 0, officialZenith⟩ noonApril10 0 sunset).1 ≤ 23 ∧
      (eventTime gregorian realTrig ⟨0, 0, officialZenith⟩ noonApril10 0 sunset).2 ≤ 59 := by
  unfold eventTime
  rw [ordinalDate_noonApril10]
  have e : (((0 : ℤ) : ℝ)) / 60 = 0 := by norm_num
  rw [e]
  exact calcSunset_equator sunset

/-- With a UTC offset of 6000 minutes both events of 1970-04-10 at the equator get an
hour between 80 and 99. -/
theorem eventTime_equator_big (sunset : Bool) :
    80 ≤ (eventTime gregorian realTrig ⟨0, 0, officialZenith⟩ noonApril10 6000 sunset).1 ∧
      (eventTime gregorian realTrig ⟨0, 0, officialZenith⟩ noonApril10 6000 sunset).1 ≤ 99 ∧
      (eventTime gregorian realTrig ⟨0, 0, officialZenith⟩ noonApril10 6000 sunset).2 ≤ 59 := by
  unfold eventTime
  rw [ordinalDate_noonApril10]
  have e : (((6000 : ℤ) : ℝ)) / 60 = 100 := by norm_num
  rw [e]
  exact calcSunset_equator_big sunset

end RealFacts

/-! ## The claims -/

section Claims

/-! ### C1 -/

/-- C1. For every year `y` and month `m` in `1..12` (and every day `d`, in particular
every valid day of that month), `ordinalDate` returns the standard day of the year:
`d` plus the lengths of the months before `m`, February having 29 days exactly in the
years that are divisible by 4 and not by 100, or divisible by 400. -/
theorem ordinalDate_eq_stdDayOfYear (y : ℤ) (m : ℕ) (d : ℤ) (hm1 : 1 ≤ m) (hm12 : m ≤ 12)
    (_hd1 : 1 ≤ d) (_hd : d ≤ monthLength y m) :
    ordinalDate y (m : ℤ) d = stdDayOfYear y m d := by
  have hleap : (if isLeap y = true then (60 : ℤ) else 59) = if specLeap y then 60 else 59 := by
    by_cases h : specLeap y
    · rw [if_pos h, if_pos ((isLeap_iff y).mpr h)]
    · rw [if_neg h, if_neg (fun h2 => h ((isLeap_iff y).mp h2))]
  unfold ordinalDate stdDayOfYear
  interval_cases m
  · simp
  · simp [monthLength]
  all_goals
    simp only [Nat.cast_ofNat, OfNat.ofNat_ne_one, if_false, hleap]
    norm_num [Int.floor_eq_iff, Finset.sum_Ico_eq_sum_range, Finset.sum_range_succ, monthLength]
    split_ifs <;> ring

/-- C1 at 1 March 2024, which is day 61 of a leap year. -/
theorem ordinalDate_eq_stdDayOfYear_witness :
    ordinalDate 2024 ((3 : ℕ) : ℤ) 1 = stdDayOfYear 2024 3 1 ∧ stdDayOfYear 2024 3 1 = 61 :=
  ⟨ordinalDate_eq_stdDayOfYear 2024 3 1 (by decide) (by decide) (by decide) (by decide),
    by decide⟩

/-! ### C2 -/

/-- C2 (as stated) fails.  The value `x = 23.995` passed to the last `AdjustTo24` is
returned unchanged, the rounding term carries it past `24`, and the result is hour `24`,
minute `0`.  With real trigonometry, on day 100 at latitude 0, longitude 0, official
zenith, and a UTC offset of 100 hours, the sunset hour is at least `80`. -/
theorem calcSunset_hour_24 :
    hourMinute (finalTime (23995 / 1000 : ℚ)) = (24, 0) ∧
      ¬ ((hourMinute (finalTime (23995 / 1000 : ℚ))).1 ≤ 23) ∧
      ¬ ((calcSunset realTrig ⟨0, 0, officialZenith⟩ 100 true 100).1 ≤ 23) := by
  have h : hourMinute (finalTime (23995 / 1000 : ℚ)) = (24, 0) := by
    rw [finalTime, AdjustTo24_of_le _ (by norm_num) (by norm_num)]
    exact hourMinute_eq _ 24 0 (by norm_num) (by norm_num) (by norm_num [roundingBias])
      (by norm_num [roundingBias])
  refine ⟨h, ?_, ?_⟩
  · rw [h]; decide
  · have := (calcSunset_equator_big true).1
    omega

/-- C2 (amended). For every input of `calcSunset` (with `|sin| ≤ 1` and `0 ≤ acos ≤ pi`),
`x` being the value passed to the last `AdjustTo24`:
on the early return (`cosH > 1` or `cosH < -1`) the pair is `(0, 0)`;
whenever `x` is at most one period out of range, `-24 ≤ x ≤ 48`, then
`0 ≤ AdjustTo24 x ≤ 24`;
whenever `-24 ≤ x ≤ -0.0084`, or `0 ≤ x ≤ 23.9916`, or `24 < x ≤ 47.9916`, the returned
pair satisfies `hour ≤ 23` and `minute ≤ 59`;
and `x` is at most one period out of range for every day of the year in `[1, 366]`, both
event flags, every latitude and zenith, every longitude in `[-180, 180]` and every UTC
offset between `-14` and `14` hours. -/
theorem calcSunset_range {K : Type} [LinearOrderedField K] [FloorRing K] (T : Trig K)
    (hsin : ∀ x, |T.sin x| ≤ 1) (hacos : ∀ y, 0 ≤ T.acos y ∧ T.acos y ≤ pi)
    (c : Config K) (doy : ℤ) (sunset : Bool) (utcOffset : K) :
    ((cosH T c doy sunset > 1 ∨ cosH T c doy sunset < -1) →
        calcSunset T c doy sunset utcOffset = (0, 0)) ∧
      (-24 ≤ localTimeArg T c doy sunset utcOffset →
        localTimeArg T c doy sunset utcOffset ≤ 48 →
        0 ≤ AdjustTo24 (localTimeArg T c doy sunset utcOffset) ∧
        AdjustTo24 (localTimeArg T c doy sunset utcOffset) ≤ 24) ∧
      ((-24 ≤ localTimeArg T c doy sunset utcOffset ∧
          localTimeArg T c doy sunset utcOffset ≤ -(84 / 10000)) ∨
        (0 ≤ localTimeArg T c doy sunset utcOffset ∧
          localTimeArg T c doy sunset utcOffset ≤ 239916 / 10000) ∨
        (24 < localTimeArg T c doy sunset utcOffset ∧
          localTimeArg T c doy sunset utcOffset ≤ 479916 / 10000) →
        (calcSunset T c doy sunset utcOffset).1 ≤ 23 ∧
        (calcSunset T c doy sunset utcOffset).2 ≤ 59) ∧
      (1 ≤ doy → doy ≤ 366 → -180 ≤ c.m_lon → c.m_lon ≤ 180 →
        -14 ≤ utcOffset → utcOffset ≤ 14 →
        -24 ≤ localTimeArg T c doy sunset utcOffset ∧
        localTimeArg T c doy sunset utcOffset ≤ 48) := by
  refine ⟨?_, ?_, ?_, ?_⟩
  · intro h
    rw [calcSunset_eq]
    rcases h with h | h
    · simp only [if_pos h]
    · simp only [if_pos h, ite_self]
  · intro hx1 hx2
    exact AdjustTo24_bounds _ hx1 hx2
  · intro hx
    have hA : 0 ≤ AdjustTo24 (localTimeArg T c doy sunset utcOffset) ∧
        AdjustTo24 (localTimeArg T c doy sunset utcOffset) ≤ 239916 / 10000 := by
      rcases hx with ⟨h1, h2⟩ | ⟨h1, h2⟩ | ⟨h1, h2⟩
      · rw [AdjustTo24_of_neg _ (by linarith)]
        constructor <;> linarith
      · rw [AdjustTo24_of_le _ h1 (by linarith)]
        exact ⟨h1, h2⟩
      · rw [AdjustTo24_of_gt _ h1]
        constructor <;> linarith
    by_cases h1 : cosH T c doy sunset > 1
    · rw [calcSunset_eq]
      simp only [if_pos h1]
      exact ⟨Nat.zero_le _, Nat.zero_le _⟩
    · by_cases h2 : cosH T c doy sunset < -1
      · rw [calcSunset_eq]
        simp only [if_neg h1, if_pos h2]
        exact ⟨Nat.zero_le _, Nat.zero_le _⟩
      · rw [calcSunset_main T c doy sunset utcOffset h1 h2]
        have h3 : ((0 : ℕ) : K) ≤ finalTime (localTimeArg T c doy sunset utcOffset) := by
          rw [Nat.cast_zero]; unfold finalTime roundingBias; linarith [hA.1]
        have h4 : finalTime (localTimeArg T c doy sunset utcOffset) < ((24 : ℕ) : K) := by
          rw [Nat.cast_ofNat]; unfold finalTime roundingBias; linarith [hA.2]
        obtain ⟨-, hb, hc⟩ := hourMinute_between _ 0 24 (by norm_num) h3 h4
        exact ⟨by omega, hc⟩
  · intro hd1 hd hl1 hl ho1 ho
    obtain ⟨hu1, hu2⟩ := utcTime_bounds T hsin hacos c doy sunset hd1 hd hl1 hl
    rw [localTimeArg_add]
    constructor <;> linarith

/-- C2 (amended) at the sunset of day 100 at latitude 0, longitude 0, official zenith and
a zero UTC offset, which takes the main path of `calcSunset`: the value passed to the last
`AdjustTo24` is between `0` and `23.9916`, and the pair is a time of day. -/
theorem calcSunset_range_witness :
    (-24 ≤ localTimeArg realTrig ⟨0, 0, officialZenith⟩ 100 true 0 ∧
      localTimeArg realTrig ⟨0, 0, officialZenith⟩ 100 true 0 ≤ 48) ∧
      (0 ≤ localTimeArg realTrig ⟨0, 0, officialZenith⟩ 100 true 0 ∧
        localTimeArg realTrig ⟨0, 0, officialZenith⟩ 100 true 0 ≤ 239916 / 10000) ∧
      (calcSunset realTrig ⟨0, 0, officialZenith⟩ 100 true 0).1 ≤ 23 ∧
      (calcSunset realTrig ⟨0, 0, officialZenith⟩ 100 true 0).2 ≤ 59 :=
  have hx : 0 ≤ localTimeArg realTrig ⟨0, 0, officialZenith⟩ 100 true 0 ∧
      localTimeArg realTrig ⟨0, 0, officialZenith⟩ 100 true 0 ≤ 239916 / 10000 := by
    obtain ⟨h1, h2⟩ := utc_equator true
    constructor <;> linarith
  have h := calcSunset_range realTrig (fun x => Real.abs_sin_le_one x) realTrig_acos_bounds
    ⟨0, 0, officialZenith⟩ 100 true 0
  ⟨h.2.2.2 (by decide) (by decide) (by norm_num) (by norm_num) (by norm_num) (by norm_num),
    hx, h.2.2.1 (Or.inr (Or.inl hx))⟩

/-! ### C3 -/

/-- C3 (as stated) fails.  The Gregorian calendar satisfies the collaborator contract, yet
for 1970-04-10 at the equator with a UTC offset of 6000 minutes the hour field of the
decomposed sunset timestamp (below 24) differs from the integer code divided by 100 (at
least 80). -/
theorem cross_consistency_fails :
    (∀ f : TmElements, ValidFields f → gregorian.breakTime (gregorian.makeTime f) = f) ∧
      ValidFields (gregorian.breakTime noonApril10) ∧
      ((gregorian.breakTime
          (calculateTime gregorian realTrig ⟨0, 0, officialZenith⟩ noonApril10 6000).2).Hour : ℤ) ≠
        (calculate gregorian realTrig ⟨0, 0, officialZenith⟩ noonApril10 6000).2 / 100 := by
  refine ⟨gregorian_roundtrip, by decide, ?_⟩
  obtain ⟨h80, h99, hm⟩ := eventTime_equator_big true
  rw [calculate_snd]
  have hlt : (gregorian.breakTime
      (calculateTime gregorian realTrig ⟨0, 0, officialZenith⟩ noonApril10 6000).2).Hour < 24 :=
    Nat.mod_lt _ (by norm_num)
  omega

/-- C3 (amended). Assume the calendar collaborator satisfies
`decompose(compose(f)) = f` for valid calendar fields and decomposes `t` into valid
fields.  For each event whose computed hour is at most 23 and minute at most 59, the hour
and minute fields of the decomposed timestamp equal the integer code divided by 100 and
the code modulo 100. -/
theorem calculate_cross_consistency {K : Type} [LinearOrderedField K] [FloorRing K]
    (L : TimeLib) (T : Trig K) (c : Config K) (t : ℕ) (utcOffset : ℤ)
    (hcontract : ∀ f : TmElements, ValidFields f → L.breakTime (L.makeTime f) = f)
    (hdate : ValidFields (L.breakTime t)) :
    ((eventTime L T c t utcOffset false).1 ≤ 23 ∧ (eventTime L T c t utcOffset false).2 ≤ 59 →
        ((L.breakTime (calculateTime L T c t utcOffset).1).Hour : ℤ) =
          (calculate L T c t utcOffset).1 / 100 ∧
        ((L.breakTime (calculateTime L T c t utcOffset).1).Minute : ℤ) =
          (calculate L T c t utcOffset).1 % 100) ∧
      ((eventTime L T c t utcOffset true).1 ≤ 23 ∧ (eventTime L T c t utcOffset true).2 ≤ 59 →
        ((L.breakTime (calculateTime L T c t utcOffset).2).Hour : ℤ) =
          (calculate L T c t utcOffset).2 / 100 ∧
        ((L.breakTime (calculateTime L T c t utcOffset).2).Minute : ℤ) =
          (calculate L T c t utcOffset).2 % 100) := by
  constructor
  · intro hev
    have hb := breakTime_event L T c t utcOffset false hcontract hdate hev
    simp only [Bool.false_eq_true, if_false] at hb
    rw [hb, calculate_fst]
    simp only
    omega
  · intro hev
    have hb := breakTime_event L T c t utcOffset true hcontract hdate hev
    simp only [if_true] at hb
    rw [hb, calculate_snd]
    simp only
    omega

/-- C3 (amended) for the Gregorian calendar, 1970-04-10 12:00:00, latitude 0,
longitude 0, official zenith and a zero UTC offset: both events are times of day. -/
theorem calculate_cross_consistency_witness :
    (((gregorian.breakTime
          (calculateTime gregorian realTrig ⟨0, 0, officialZenith⟩ noonApril10 0).1).Hour : ℤ) =
        (calculate gregorian realTrig ⟨0, 0, officialZenith⟩ noonApril10 0).1 / 100 ∧
      ((gregorian.breakTime
          (calculateTime gregorian realTrig ⟨0, 0, officialZenith⟩ noonApril10 0).1).Minute : ℤ) =
        (calculate gregorian realTrig ⟨0, 0, officialZenith⟩ noonApril10 0).1 % 100) ∧
    (((gregorian.breakTime
          (calculateTime gregorian realTrig ⟨0, 0, officialZenith⟩ noonApril10 0).2).Hour : ℤ) =
        (calculate gregorian realTrig ⟨0, 0, officialZenith⟩ noonApril10 0).2 / 100 ∧
      ((gregorian.breakTime
          (calculateTime gregorian realTrig ⟨0, 0, officialZenith⟩ noonApril10 0).2).Minute : ℤ) =
        (calculate gregorian realTrig ⟨0, 0, officialZenith⟩ noonApril10 0).2 % 100) :=
  ⟨(calculate_cross_consistency gregorian realTrig ⟨0, 0, officialZenith⟩ noonApril10 0
      gregorian_roundtrip (by decide)).1 (eventTime_equator false),
    (calculate_cross_consistency gregorian realTrig ⟨0, 0, officialZenith⟩ noonApril10 0
      gregorian_roundtrip (by decide)).2 (eventTime_equator true)⟩

/-! ### C4 -/

/-- C4 (as stated) fails.  The Gregorian calendar satisfies the collaborator contract, yet
for 1970-04-10 at the equator with a UTC offset of 6000 minutes the sunset timestamp
decomposes to another day of the month than the input. -/
theorem calculateTime_date_shift :
    (∀ f : TmElements, ValidFields f → gregorian.breakTime (gregorian.makeTime f) = f) ∧
      ValidFields (gregorian.breakTime noonApril10) ∧
      (gregorian.breakTime
          (calculateTime gregorian realTrig ⟨0, 0, officialZenith⟩ noonApril10 6000).2).Day ≠
        (gregorian.breakTime noonApril10).Day := by
  refine ⟨gregorian_roundtrip, by decide, ?_⟩
  obtain ⟨h80, h99, hm⟩ := eventTime_equator_big true
  have hb : gregorian.breakTime noonApril10 = ⟨0, 0, 12, 10, 4, 0⟩ := by decide
  have hf : sunsetFields gregorian realTrig ⟨0, 0, officialZenith⟩ noonApril10 6000 =
      ⟨0, (eventTime gregorian realTrig ⟨0, 0, officialZenith⟩ noonApril10 6000 true).2,
        (eventTime gregorian realTrig ⟨0, 0, officialZenith⟩ noonApril10 6000 true).1, 10, 4, 0⟩ := by
    rw [sunsetFields_eq, hb]
  rw [calculateTime_eq, hf, hb]
  have hshift := gregorian_day_shift
    (eventTime gregorian realTrig ⟨0, 0, officialZenith⟩ noonApril10 6000 true).1
    (eventTime gregorian realTrig ⟨0, 0, officialZenith⟩ noonApril10 6000 true).2 h80 h99 hm
  exact hshift

/-- C4 (amended). Assume the calendar collaborator satisfies
`decompose(compose(f)) = f` for valid calendar fields and decomposes `t` into valid
fields.  For each event whose computed hour is at most 23 and minute at most 59, the
returned timestamp decomposes to the year, month and day of `t`, with hour and minute
those of the event and second `0`; this holds for sunset as for sunrise. -/
theorem calculateTime_same_date {K : Type} [LinearOrderedField K] [FloorRing K]
    (L : TimeLib) (T : Trig K) (c : Config K) (t : ℕ) (utcOffset : ℤ)
    (hcontract : ∀ f : TmElements, ValidFields f → L.breakTime (L.makeTime f) = f)
    (hdate : ValidFields (L.breakTime t)) :
    ((eventTime L T c t utcOffset false).1 ≤ 23 ∧ (eventTime L T c t utcOffset false).2 ≤ 59 →
        L.breakTime (calculateTime L T c t utcOffset).1 =
          { Year := (L.breakTime t).Year, Month := (L.breakTime t).Month,
            Day := (L.breakTime t).Day,
            Hour := (eventTime L T c t utcOffset false).1,
            Minute := (eventTime L T c t utcOffset false).2,
            Second := 0 }) ∧
      ((eventTime L T c t utcOffset true).1 ≤ 23 ∧ (eventTime L T c t utcOffset true).2 ≤ 59 →
        L.breakTime (calculateTime L T c t utcOffset).2 =
          { Year := (L.breakTime t).Year, Month := (L.breakTime t).Month,
            Day := (L.breakTime t).Day,
            Hour := (eventTime L T c t utcOffset true).1,
            Minute := (eventTime L T c t utcOffset true).2,
            Second := 0 }) := by
  constructor
  · intro hev
    have hb := breakTime_event L T c t utcOffset false hcontract hdate hev
    simp only [Bool.false_eq_true, if_false] at hb
    exact hb
  · intro hev
    have hb := breakTime_event L T c t utcOffset true hcontract hdate hev
    simp only [if_true] at hb
    exact hb

/-- C4 (amended) for the Gregorian calendar, 1970-04-10 12:00:00, latitude 0,
longitude 0, official zenith and a zero UTC offset: both timestamps are on 10 April. -/
theorem calculateTime_same_date_witness :
    gregorian.breakTime
        (calculateTime gregorian realTrig ⟨0, 0, officialZenith⟩ noonApril10 0).1 =
      { Year := 0, Month := 4, Day := 10,
        Hour := (eventTime gregorian realTrig ⟨0, 0, officialZenith⟩ noonApril10 0 false).1,
        Minute := (eventTime gregorian realTrig ⟨0, 0, officialZenith⟩ noonApril10 0 false).2,
        Second := 0 } ∧
    gregorian.breakTime
        (calculateTime gregorian realTrig ⟨0, 0, officialZenith⟩ noonApril10 0).2 =
      { Year := 0, Month := 4, Day := 10,
        Hour := (eventTime gregorian realTrig ⟨0, 0, officialZenith⟩ noonApril10 0 true).1,
        Minute := (eventTime gregorian realTrig ⟨0, 0, officialZenith⟩ noonApril10 0 true).2,
        Second := 0 } :=
  ⟨(calculateTime_same_date gregorian realTrig ⟨0, 0, officialZenith⟩ noonApril10 0
      gregorian_roundtrip (by decide)).1 (eventTime_equator false),
    (calculateTime_same_date gregorian realTrig ⟨0, 0, officialZenith⟩ noonApril10 0
      gregorian_roundtrip (by decide)).2 (eventTime_equator true)⟩

/-! ### C5 -/

/-- C5. Whenever the local hour-angle cosine computed by `calcSunset` is greater than `1`
or less than `-1`, `calcSunset` returns `hour = 0` and `minute = 0` whatever the UTC
offset, and the integer variant of `calculate` reports the code `0` for that event. -/
theorem calcSunset_no_event {K : Type} [LinearOrderedField K] [FloorRing K]
    (T : Trig K) (c : Config K) (doy : ℤ) (sunset : Bool)
    (h : cosH T c doy sunset > 1 ∨ cosH T c doy sunset < -1) :
    (∀ utcOffset : K, calcSunset T c doy sunset utcOffset = (0, 0)) ∧
      ∀ (L : TimeLib) (t : ℕ) (utcOffset : ℤ),
        ordinalDate (L.year t) (L.month t) (L.day t) = doy →
        (if sunset then (calculate L T c t utcOffset).2
          else (calculate L T c t utcOffset).1) = 0 := by
  have hcs : ∀ utcOffset : K, calcSunset T c doy sunset utcOffset = (0, 0) := by
    intro utcOffset
    rw [calcSunset_eq]
    rcases h with h | h
    · simp only [if_pos h]
    · simp only [if_pos h, ite_self]
  refine ⟨hcs, ?_⟩
  intro L t utcOffset hord
  cases sunset
  · simp only [Bool.false_eq_true, if_false, calculate, hord, hcs]
    norm_num
  · simp only [if_true, calculate, hord, hcs]
    norm_num

/-- C5 at the sunset of day 172 at latitude 75 N, longitude 0, official zenith, where
`cosH < -1`. -/
theorem calcSunset_no_event_witness :
    (∀ utcOffset : ℝ, calcSunset realTrig ⟨75, 0, officialZenith⟩ 172 true utcOffset = (0, 0)) ∧
      ∀ (L : TimeLib) (t : ℕ) (utcOffset : ℤ),
        ordinalDate (L.year t) (L.month t) (L.day t) = 172 →
        (calculate L realTrig ⟨75, 0, officialZenith⟩ t utcOffset).2 = 0 :=
  calcSunset_no_event realTrig ⟨75, 0, officialZenith⟩ 172 true
    (Or.inr (cosH_circumpolar 0 (by norm_num) (by norm_num) true))

/-! ### C6 -/

/-- C6 (as stated) fails at `x = 360`: the test is `i > 360.0`, so `360` is returned
unchanged and is not below `360`. -/
theorem AdjustTo360_360_not_lt :
    (-360 : ℚ) ≤ 360 ∧ (360 : ℚ) < 720 ∧ AdjustTo360 (360 : ℚ) = 360 ∧
      ¬ (AdjustTo360 (360 : ℚ) < 360) := by
  have h : AdjustTo360 (360 : ℚ) = 360 := AdjustTo360_of_le 360 (by norm_num) le_rfl
  exact ⟨by norm_num, by norm_num, h, by rw [h]; exact lt_irrefl _⟩

/-- C6 (amended). For every `x` with `-360 ≤ x < 720`, `AdjustTo360 x` lies in the closed
interval `[0, 360]`: `0 ≤ AdjustTo360 x ≤ 360`. -/
theorem AdjustTo360_range {K : Type} [LinearOrderedField K]
    (x : K) (hlo : -360 ≤ x) (hhi : x < 720) :
    0 ≤ AdjustTo360 x ∧ AdjustTo360 x ≤ 360 := by
  rcases lt_or_le x 0 with hneg | hnn
  · rw [AdjustTo360_of_neg x hneg]
    constructor <;> linarith
  · rcases le_or_lt x 360 with hle | hgt
    · rw [AdjustTo360_of_le x hnn hle]
      exact ⟨hnn, hle⟩
    · rw [AdjustTo360_of_gt x hgt]
      constructor <;> linarith

/-- C6 (amended) at `x = 370` and at `x = -10`. -/
theorem AdjustTo360_range_witness :
    (AdjustTo360 (370 : ℚ) = 10 ∧ 0 ≤ AdjustTo360 (370 : ℚ) ∧ AdjustTo360 (370 : ℚ) ≤ 360) ∧
      (AdjustTo360 (-10 : ℚ) = 350 ∧ 0 ≤ AdjustTo360 (-10 : ℚ) ∧ AdjustTo360 (-10 : ℚ) ≤ 360) :=
  ⟨⟨by rw [AdjustTo360_of_gt _ (by norm_num)]; norm_num,
      AdjustTo360_range (370 : ℚ) (by norm_num) (by norm_num)⟩,
    ⟨by rw [AdjustTo360_of_neg _ (by norm_num)]; norm_num,
      AdjustTo360_range (-10 : ℚ) (by norm_num) (by norm_num)⟩⟩

/-! ### C7 -/

/-- C7. At latitude 75 N with the official zenith, on day 172 (21 June of a non-leap
year), for every longitude in `[-180, 180]` and every UTC offset, the sunset calculation
does not take the `cosH > 1` branch, takes the `cosH < -1` branch and returns hour `0`,
minute `0`. -/
theorem calcSunset_circumpolar (lon utcOffset : ℝ) (hl1 : -180 ≤ lon) (hl : lon ≤ 180) :
    ordinalDate 2023 6 21 = 172 ∧
      ¬ (cosH realTrig ⟨75, lon, officialZenith⟩ 172 true > 1) ∧
      cosH realTrig ⟨75, lon, officialZenith⟩ 172 true < -1 ∧
      calcSunset realTrig ⟨75, lon, officialZenith⟩ 172 true utcOffset = (0, 0) := by
  have h := cosH_circumpolar lon hl1 hl true
  have h1 : ¬ (cosH realTrig ⟨75, lon, officialZenith⟩ 172 true > 1) := by
    intro h2; linarith
  refine ⟨by norm_num [ordinalDate, isLeap, Int.floor_eq_iff, Int.tmod], h1, h, ?_⟩
  rw [calcSunset_eq]
  simp only [if_neg h1, if_pos h]

/-- C7 at longitude 83.62 W with a UTC offset of -4 hours. -/
theorem calcSunset_circumpolar_witness :
    ordinalDate 2023 6 21 = 172 ∧
      ¬ (cosH realTrig ⟨75, -8362 / 100, officialZenith⟩ 172 true > 1) ∧
      cosH realTrig ⟨75, -8362 / 100, officialZenith⟩ 172 true < -1 ∧
      calcSunset realTrig ⟨75, -8362 / 100, officialZenith⟩ 172 true (-4) = (0, 0) :=
  calcSunset_circumpolar (-8362 / 100) (-4) (by norm_num) (by norm_num)

/-! ### C8 -/

/-- C8. For every final time value `ut` with `0 ≤ ut < 256`, lines 155-158 set
`hour = floor(ut)` and `minute = floor(60 * (ut - hour))`; the minute is at most `59`
and `60 * hour + minute = floor(60 * ut)`.  `calcSunset` returns this pair whenever it
does not take the early return and its final time value is `ut`. -/
theorem hourMinute_shape {K : Type} [LinearOrderedField K] [FloorRing K]
    (ut : K) (h0 : 0 ≤ ut) (h : ut < 256) :
    (((hourMinute ut).1 : ℕ) : ℤ) = ⌊ut⌋ ∧
      (((hourMinute ut).2 : ℕ) : ℤ) = ⌊60 * (ut - (((hourMinute ut).1 : ℕ) : K))⌋ ∧
      (hourMinute ut).2 ≤ 59 ∧
      60 * (((hourMinute ut).1 : ℕ) : ℤ) + (((hourMinute ut).2 : ℕ) : ℤ) = ⌊60 * ut⌋ ∧
      ∀ (T : Trig K) (c : Config K) (doy : ℤ) (sunset : Bool) (utcOffset : K),
        ¬ (cosH T c doy sunset > 1) → ¬ (cosH T c doy sunset < -1) →
        finalTime (localTimeArg T c doy sunset utcOffset) = ut →
        calcSunset T c doy sunset utcOffset = hourMinute ut := by
  have hfst := hourMinute_fst ut h0 h
  obtain ⟨hsnd, hlo, hhi⟩ := hourMinute_snd ut h0 h
  have hcast : (((hourMinute ut).1 : ℕ) : K) = ((⌊ut⌋ : ℤ) : K) := by
    rw [← hfst]; simp
  have hm59 : ⌊60 * (ut - ((⌊ut⌋ : ℤ) : K))⌋ ≤ 59 := by
    have : ⌊60 * (ut - ((⌊ut⌋ : ℤ) : K))⌋ < 60 := Int.floor_lt.mpr (by exact_mod_cast hhi)
    omega
  refine ⟨hfst, by rw [hcast]; exact hsnd, ?_, ?_, ?_⟩
  · have : (((hourMinute ut).2 : ℕ) : ℤ) ≤ 59 := by rw [hsnd]; exact hm59
    exact_mod_cast this
  · rw [hfst, hsnd]
    have e : 60 * (ut - ((⌊ut⌋ : ℤ) : K)) = 60 * ut - ((60 * ⌊ut⌋ : ℤ) : K) := by
      push_cast; ring
    rw [e, Int.floor_sub_int]
    ring
  · intro T c doy sunset utcOffset h1 h2 hut
    rw [calcSunset_eq]
    simp only [if_neg h1, if_neg h2, hut]

/-- C8 at the final time value `16.999`, which is 16 h 59 min. -/
theorem hourMinute_shape_witness :
    hourMinute (16999 / 1000 : ℚ) = (16, 59) ∧
    (((hourMinute (16999 / 1000 : ℚ)).1 : ℕ) : ℤ) = ⌊(16999 / 1000 : ℚ)⌋ ∧
      (((hourMinute (16999 / 1000 : ℚ)).2 : ℕ) : ℤ) =
        ⌊60 * ((16999 / 1000 : ℚ) - (((hourMinute (16999 / 1000 : ℚ)).1 : ℕ) : ℚ))⌋ ∧
      (hourMinute (16999 / 1000 : ℚ)).2 ≤ 59 ∧
      60 * (((hourMinute (16999 / 1000 : ℚ)).1 : ℕ) : ℤ) +
        (((hourMinute (16999 / 1000 : ℚ)).2 : ℕ) : ℤ) = ⌊60 * (16999 / 1000 : ℚ)⌋ ∧
      ∀ (T : Trig ℚ) (c : Config ℚ) (doy : ℤ) (sunset : Bool) (utcOffset : ℚ),
        ¬ (cosH T c doy sunset > 1) → ¬ (cosH T c doy sunset < -1) →
        finalTime (localTimeArg T c doy sunset utcOffset) = (16999 / 1000 : ℚ) →
        calcSunset T c doy sunset utcOffset = hourMinute (16999 / 1000 : ℚ) :=
  ⟨hourMinute_eq _ 16 59 (by norm_num) (by norm_num) (by norm_num) (by norm_num),
    hourMinute_shape (16999 / 1000 : ℚ) (by norm_num) (by norm_num)⟩

/-! ### C9 -/

/-- C9. For all `l` and `ra`, the corrected right ascension
`ra + (floor(l/90)*90 - floor(ra/90)*90)` lies in the quadrant of `l`, and its offset
within the quadrant is that of `ra`. -/
theorem quadrantAdjust_quadrant {K : Type} [LinearOrderedField K] [FloorRing K]
    (l ra : K) :
    ⌊quadrantAdjust l ra / 90⌋ = ⌊l / 90⌋ ∧
      quadrantAdjust l ra - ((⌊l / 90⌋ : ℤ) : K) * 90 = ra - ((⌊ra / 90⌋ : ℤ) : K) * 90 := by
  have hq : quadrantAdjust l ra / 90 = (ra / 90 - ((⌊ra / 90⌋ : ℤ) : K)) + ((⌊l / 90⌋ : ℤ) : K) := by
    unfold quadrantAdjust
    field_simp
    ring
  constructor
  · rw [hq, Int.floor_add_int]
    have h0 : ⌊ra / 90 - ((⌊ra / 90⌋ : ℤ) : K)⌋ = 0 := by
      rw [Int.floor_sub_int, sub_self]
    rw [h0, zero_add]
  · unfold quadrantAdjust
    ring

/-! ### C10 -/

/-- C10. For every day of the year in `[1, 366]`, every longitude in `[-180, 180]` and both
event flags, and for any `sin` with `|sin| ≤ 1`, the argument of `AdjustTo360` on line 107
lies strictly between `0` and `720`, and the true longitude it returns satisfies
`0 ≤ l ≤ 360`. -/
theorem trueLongitude_range {K : Type} [LinearOrderedField K]
    (T : Trig K) (hsin : ∀ x, |T.sin x| ≤ 1) (c : Config K) (doy : ℤ)
    (sunset : Bool) (hd1 : 1 ≤ doy) (hd : doy ≤ 366)
    (hl1 : -180 ≤ c.m_lon) (hl : c.m_lon ≤ 180) :
    0 < rawLongitude T c doy sunset ∧ rawLongitude T c doy sunset < 720 ∧
      0 ≤ trueLongitude T c doy sunset ∧ trueLongitude T c doy sunset ≤ 360 := by
  obtain ⟨ht1, ht2⟩ := approxTime_bounds c doy sunset hl1 hl
  obtain ⟨hr1, hr2⟩ := rawLongitude_bounds T hsin c doy sunset
  have hd1K : (1 : K) ≤ (doy : K) := by exact_mod_cast hd1
  have hdK : (doy : K) ≤ 366 := by exact_mod_cast hd
  have hm : meanAnomaly c doy sunset =
      (9856 / 10000) * approxTime c doy sunset - 3289 / 1000 := rfl
  have hpos : 0 < rawLongitude T c doy sunset := by linarith
  have hlt : rawLongitude T c doy sunset < 720 := by linarith
  refine ⟨hpos, hlt, ?_, ?_⟩
  · unfold trueLongitude
    rcases le_or_lt (rawLongitude T c doy sunset) 360 with h | h
    · rw [AdjustTo360_of_le _ hpos.le h]; exact hpos.le
    · rw [AdjustTo360_of_gt _ h]; linarith
  · unfold trueLongitude
    rcases le_or_lt (rawLongitude T c doy sunset) 360 with h | h
    · rw [AdjustTo360_of_le _ hpos.le h]; exact h
    · rw [AdjustTo360_of_gt _ h]; linarith

/-- C10 for the real sine at latitude 42.93 N, longitude 83.62 W, day 172, sunset. -/
theorem trueLongitude_range_witness :
    (1 : ℤ) ≤ 172 ∧ (172 : ℤ) ≤ 366 ∧
      0 < rawLongitude realTrig ⟨4293 / 100, -8362 / 100, officialZenith⟩ 172 true ∧
      rawLongitude realTrig ⟨4293 / 100, -8362 / 100, officialZenith⟩ 172 true < 720 ∧
      0 ≤ trueLongitude realTrig ⟨4293 / 100, -8362 / 100, officialZenith⟩ 172 true ∧
      trueLongitude realTrig ⟨4293 / 100, -8362 / 100, officialZenith⟩ 172 true ≤ 360 :=
  ⟨by decide, by decide,
    trueLongitude_range realTrig (fun x => Real.abs_sin_le_one x)
      ⟨4293 / 100, -8362 / 100, officialZenith⟩ 172 true (by decide) (by decide)
      (by norm_num) (by norm_num)⟩

end Claims

end JC_Sunrise
